import Mathlib

/-!
Verification development for the avatar rendering service
(character-generation server). The definitions below are shallow
embeddings of the JavaScript source modules:

* `app/modules/imageWorker.js` / `app/modules/imageProcessor.js` —
  chroma-key pixel pass (`isColorSimilar`, the mask and single-image loops,
  and the target/tolerance constants);
* `app/modules/api.js` — `getFacingOrder`, the pseudo-layer selection in
  `generateDirectionalAvatar`, `sanitizeUsername`, the `typeMap`
  normalization in `getAvatar`, `retryWithBackoff`, the
  `RETRY_ATTEMPTS`/`RETRY_DELAY` constants, and the `generationLocks`
  single-flight discipline of `getAvatar`;
* `app/modules/avatarWorker.js` — its own `getFacingOrder` tables;
* the unnamed queue module (`InMemoryQueue`, the priority assignment in its
  `getAvatar`, `generateAvatarAsync`, and `getImage`).

Machine integers are modelled as `Int`/`Nat`; fallible operations return
`Except`; buffers are lists of pixels; the event-loop atomicity of a
JavaScript handler between two `await` points is modelled by making each
arrival an atomic state transition.
-/

/-! ## Chroma-key pixel pass (imageWorker.js, imageProcessor.js) -/

/-- One RGBA pixel of a decoded raster; each channel is a byte value.
Channels are `Int` so that `target - tolerance` can be negative exactly as
in the JavaScript arithmetic. -/
structure Pixel where
  r : Int
  g : Int
  b : Int
  a : Int
deriving DecidableEq, Repr

/-- Embedding of `isColorSimilar` from `imageWorker.js`: a per-channel
box test `target - tolerance ≤ c ≤ target + tolerance`. -/
def isColorSimilar (r g b tR tG tB tolR tolG tolB : Int) : Bool :=
  decide (tR - tolR ≤ r) && decide (r ≤ tR + tolR) &&
  decide (tG - tolG ≤ g) && decide (g ≤ tG + tolG) &&
  decide (tB - tolB ≤ b) && decide (b ≤ tB + tolB)

/-- Chroma-key target red channel passed by `processWithWorkers`
(`imageProcessor.js`). -/
def targetR : Int := 0

/-- Chroma-key target green channel passed by `processWithWorkers`. -/
def targetG : Int := 255

/-- Chroma-key target blue channel passed by `processWithWorkers`. -/
def targetB : Int := 4

/-- Red tolerance passed by `processWithWorkers`. -/
def toleranceR : Int := 50

/-- Green tolerance passed by `processWithWorkers`. -/
def toleranceG : Int := 150

/-- Blue tolerance passed by `processWithWorkers`. -/
def toleranceB : Int := 50

/-- One iteration of the mask-mode loop of `imageWorker.js`: when the mask
pixel is fully opaque and its color is inside the tolerance box, the
result pixel's alpha byte is set to 0; otherwise the pixel is untouched. -/
def maskStep (tR tG tB tolR tolG tolB : Int) (m s : Pixel) : Pixel :=
  if m.a == 255 && isColorSimilar m.r m.g m.b tR tG tB tolR tolG tolB then
    { s with a := 0 }
  else s

/-- The mask-mode pass over a whole buffer pair (`useMask && maskView`
branch of the `imageWorker.js` message handler). -/
def removePixelsByImage (tR tG tB tolR tolG tolB : Int)
    (src mask : List Pixel) : List Pixel :=
  List.zipWith (fun s m => maskStep tR tG tB tolR tolG tolB m s) src mask

/-- One iteration of the single-image loop of `imageWorker.js`: a fully
opaque pixel whose own color is inside the tolerance box has its alpha
byte set to 0. -/
def selfStep (tR tG tB tolR tolG tolB : Int) (s : Pixel) : Pixel :=
  if s.a == 255 then
    if isColorSimilar s.r s.g s.b tR tG tB tolR tolG tolB then
      { s with a := 0 }
    else s
  else s

/-- The single-image pass over a whole buffer (`else` branch of the
`imageWorker.js` message handler, also `removePixelsByColor`). -/
def removePixelsByColor (tR tG tB tolR tolG tolB : Int)
    (src : List Pixel) : List Pixel :=
  src.map (selfStep tR tG tB tolR tolG tolB)

/-! ## Layer compositor tables and pseudo-layer selection -/

/-- Embedding of `getFacingOrder` from `api.js` (the variant that
composites the merged `tattoos` layer). Direction 0 is the front view,
directions 1 and 4 the side views, 2 and 5 the three-quarter views, and
every other value (in particular 3) falls to the back-view table. -/
def getFacingOrder (direction : Nat) : List String :=
  if direction = 0 then
    ["base",
     "tattoos",
     "makeup", "eyes", "eyebrows", "head", "nose", "mouth", "beard",
     "wings", "glasses",
     "hair_behind",
     "socks",
     "shoes_before",
     "gloves", "bottom", "belt",
     "shoes_after",
     "bracelets", "handheld",
     "top",
     "necklace", "coat", "neckwear", "hair_infront", "piercings", "earPiece", "hat", "horns",
     "bag"]
  else if direction = 1 ∨ direction = 4 then
    ["base",
     "tattoos",
     "makeup", "eyes", "eyebrows", "head", "nose", "mouth", "beard",
     "glasses",
     "hair_behind",
     "socks",
     "shoes_before",
     "gloves", "bottom", "belt",
     "shoes_after",
     "bracelets", "handheld",
     "top",
     "necklace", "coat", "neckwear", "hair_infront", "piercings", "earPiece", "hat", "horns",
     "wings", "bag"]
  else if direction = 2 ∨ direction = 5 then
    ["base",
     "tattoos",
     "makeup", "eyes", "eyebrows", "head", "nose", "mouth", "beard",
     "wings", "glasses",
     "socks",
     "shoes_before",
     "gloves", "bottom", "belt",
     "shoes_after",
     "bracelets", "handheld",
     "top", "necklace",
     "coat", "hair_behind", "piercings", "earPiece", "neckwear", "hair_infront", "hat", "horns",
     "bag"]
  else
    ["base",
     "tattoos",
     "makeup", "eyes", "eyebrows", "head", "nose", "mouth", "beard",
     "socks",
     "shoes_before",
     "gloves", "bottom", "belt",
     "shoes_after",
     "bracelets", "handheld",
     "piercings", "earPiece", "glasses",
     "horns",
     "top", "necklace", "coat", "hair_infront",
     "hair_behind", "hat", "neckwear",
     "wings", "bag"]

/-- Embedding of `getFacingOrder` from `avatarWorker.js` (the variant that
composites the ten `tattoo_*` layers individually). -/
def getFacingOrderWorker (direction : Nat) : List String :=
  if direction = 0 then
    ["base",
     "tattoo_head", "tattoo_neck", "tattoo_chest", "tattoo_stomach",
     "tattoo_backUpper", "tattoo_backLower", "tattoo_armRight",
     "tattoo_armLeft", "tattoo_legRight", "tattoo_legLeft",
     "makeup", "eyes", "eyebrows", "head", "nose", "mouth", "beard",
     "glasses",
     "hair_behind",
     "socks",
     "shoes_before",
     "gloves", "bottom", "belt",
     "shoes_after",
     "bracelets", "handheld",
     "top",
     "necklace", "coat", "neckwear", "hair_infront", "piercings", "earPiece", "hat", "horns",
     "wings", "bag"]
  else if direction = 1 ∨ direction = 4 then
    ["base",
     "tattoo_head", "tattoo_neck", "tattoo_chest", "tattoo_stomach",
     "tattoo_backUpper", "tattoo_backLower", "tattoo_armRight",
     "tattoo_armLeft", "tattoo_legRight", "tattoo_legLeft",
     "makeup", "eyes", "eyebrows", "head", "nose", "mouth", "beard",
     "glasses",
     "hair_behind",
     "socks",
     "shoes_before",
     "gloves", "bottom", "belt",
     "shoes_after",
     "bracelets", "handheld",
     "top",
     "necklace", "coat", "neckwear", "hair_infront", "piercings", "earPiece", "hat", "horns",
     "wings", "bag"]
  else if direction = 2 ∨ direction = 5 then
    ["base",
     "tattoo_head", "tattoo_neck", "tattoo_chest", "tattoo_stomach",
     "tattoo_backUpper", "tattoo_backLower", "tattoo_armRight",
     "tattoo_armLeft", "tattoo_legRight", "tattoo_legLeft",
     "makeup", "eyes", "eyebrows", "head", "nose", "mouth", "beard",
     "glasses",
     "socks",
     "shoes_before",
     "gloves", "bottom", "belt",
     "shoes_after",
     "bracelets", "handheld",
     "top", "necklace",
     "coat", "hair_behind", "piercings", "earPiece", "neckwear", "hair_infront", "hat", "horns",
     "wings", "bag"]
  else
    ["base",
     "tattoo_head", "tattoo_neck", "tattoo_chest", "tattoo_stomach",
     "tattoo_backUpper", "tattoo_backLower", "tattoo_armRight",
     "tattoo_armLeft", "tattoo_legRight", "tattoo_legLeft",
     "makeup", "eyes", "eyebrows", "head", "nose", "mouth", "beard",
     "socks",
     "shoes_before",
     "gloves", "bottom", "belt",
     "shoes_after",
     "bracelets", "handheld",
     "piercings", "earPiece", "glasses",
     "horns",
     "top", "necklace", "coat", "hair_infront",
     "hair_behind", "hat", "neckwear",
     "wings", "bag"]

/-- The pseudo-layer selection of `generateDirectionalAvatar` (identical in
`api.js`, `avatarWorker.js` and the queue module): the `shoes_before` and
`shoes_after` names resolve to the `shoes` raster depending on the
`shoesBehindPants` flag, the `hair_behind` and `hair_infront` names resolve
to the `hair` raster depending on the `hairInfrontTop` flag, and every
other name is looked up directly in the layers map. -/
def selectLayer {V : Type} (layers : String → Option V)
    (shoesBehindPants hairInfrontTop : Bool) (layerName : String) : Option V :=
  if layerName == "shoes_before" && !shoesBehindPants then layers "shoes"
  else if layerName == "shoes_after" && shoesBehindPants then layers "shoes"
  else if layerName == "hair_behind" && !hairInfrontTop then layers "hair"
  else if layerName == "hair_infront" && hairInfrontTop then layers "hair"
  else layers layerName

/-- The per-direction composition loop: walk the layer order, resolve each
name through `selectLayer`, and keep the loaded rasters in order
(`if (!layerBuffer) continue`). -/
def compositeLayers {V : Type} (order : List String)
    (layers : String → Option V) (shoesBehindPants hairInfrontTop : Bool) :
    List V :=
  order.filterMap (selectLayer layers shoesBehindPants hairInfrontTop)

/-- The keys of the layers map that `createAvatarThumbnail` in `api.js`
passes to the compositor after the ten `tattoo_*` rasters have been merged
into the single `tattoos` layer. -/
def layerSlotNames : List String :=
  ["base", "tattoos",
   "makeup", "hair", "beard", "eyes", "eyebrows", "head", "nose", "mouth",
   "hat", "piercings", "earPiece", "glasses", "horns", "top", "necklace",
   "neckwear", "coat", "belt", "bottom", "socks", "shoes", "bracelets",
   "wings", "bag", "gloves", "handheld"]

/-- The keys of the layers map that `avatarWorker.js` composites (the ten
`tattoo_*` rasters are kept as individual layers). -/
def layerSlotNamesWorker : List String :=
  ["base",
   "tattoo_head", "tattoo_neck", "tattoo_chest", "tattoo_stomach",
   "tattoo_backUpper", "tattoo_backLower", "tattoo_armRight",
   "tattoo_armLeft", "tattoo_legRight", "tattoo_legLeft",
   "makeup", "hair", "beard", "eyes", "eyebrows", "head", "nose", "mouth",
   "hat", "piercings", "earPiece", "glasses", "horns", "top", "necklace",
   "neckwear", "coat", "belt", "bottom", "socks", "shoes", "bracelets",
   "wings", "bag", "gloves", "handheld"]

/-- A layers map in which every real slot holds a unique tag (its own
name) and every pseudo name is absent, exactly like the map built by
`createAvatarThumbnail` when all parts loaded. Used to track which slot's
raster ends up at which position of the composite. -/
def slotTag (name : String) : Option String :=
  if name ∈ layerSlotNames then some name else none

/-- The tagged layers map for the `avatarWorker.js` compositor. -/
def slotTagWorker (name : String) : Option String :=
  if name ∈ layerSlotNamesWorker then some name else none

/-! ## Request validation (api.js getAvatar) -/

/-- The `RETRY_ATTEMPTS` constant of `api.js`. -/
def RETRY_ATTEMPTS : Nat := 3

/-- The `RETRY_DELAY` constant of `api.js`, in milliseconds. -/
def RETRY_DELAY : Nat := 1000

/-- Recursion underlying `retryWithBackoff`: `i` is the zero-based index of
the attempt about to run and `fuel` the number of attempts left. A success
returns immediately; a failure on the last attempt rethrows the error;
otherwise the loop sleeps `delay * 2 ^ i` and retries. The second component
collects the backoff delays actually slept. -/
def retryAux {ε α : Type} (outcomes : Nat → Except ε α) (delay : Nat) :
    Nat → Nat → Option (Except ε α) × List Nat
  | _, 0 => (none, [])
  | i, fuel + 1 =>
    match outcomes i with
    | .ok a => (some (.ok a), [])
    | .error e =>
      if fuel = 0 then (some (.error e), [])
      else
        let rest := retryAux outcomes delay (i + 1) fuel
        (rest.1, delay * 2 ^ i :: rest.2)

/-- Embedding of `retryWithBackoff` from `api.js`. The body's effects are
summarized by `outcomes`, giving the result of the wrapped call on each
zero-based attempt index; the function returns the final outcome (`none`
only when `attempts = 0`, where the JavaScript loop body never runs)
together with the list of backoff delays slept between attempts. -/
def retryWithBackoff {ε α : Type} (outcomes : Nat → Except ε α)
    (attempts delay : Nat) : Option (Except ε α) × List Nat :=
  retryAux outcomes delay 0 attempts

/-- The backoff delay computed by `InMemoryQueue.processNext` before
re-queuing a failed job: `retryDelay * 2 ^ (attempts - 1)` where `attempts`
counts the failures so far (at least 1 at that point). -/
def queueRetryDelay (retryDelay attempts : Nat) : Nat :=
  retryDelay * 2 ^ (attempts - 1)

/-- Configuration record of `InMemoryQueue`. -/
structure QueueOptions where
  concurrency : Nat
  maxQueueSize : Nat
  retryAttempts : Nat
  retryDelay : Nat
deriving DecidableEq, Repr

/-- The options the queue module passes when constructing `avatarQueue`
(the `QUEUE_CONCURRENCY` environment default is 3). -/
def avatarQueueOptions : QueueOptions :=
  { concurrency := 3, maxQueueSize := 1000, retryAttempts := 3, retryDelay := 2000 }

/-! ## In-memory render queue (unnamed queue module) -/

/-- A queued render job. `seq` is the submission order (the code uses the
insertion position of the stable sort), `jtype` the requested view type and
`priority` the numeric priority attached by `getAvatar`. -/
structure QJob where
  seq : Nat
  jtype : String
  priority : Nat
deriving DecidableEq, Repr

/-- The priority that the queue module's `getAvatar` attaches when adding a
job: `type === 'thumbnail' ? 1 : 0`. -/
def priorityFor (type : String) : Nat :=
  if type = "thumbnail" then 1 else 0

/-- The comparator `(a, b) => b.priority - a.priority` of
`InMemoryQueue.add`, as the stable-sort ordering it induces: `a` may stay
before `b` exactly when `b.priority ≤ a.priority`. -/
def jobLE (a b : QJob) : Bool :=
  decide (b.priority ≤ a.priority)

/-- The queue update performed by a successful `InMemoryQueue.add`: push
the job at the back, then stable-sort by descending priority
(`Array.prototype.sort` is a stable sort). -/
def enqueue (q : List QJob) (j : QJob) : List QJob :=
  List.mergeSort (q ++ [j]) jobLE

/-- Embedding of `InMemoryQueue.add`: reject when the queue is at
capacity, report a duplicate (leaving the queue unchanged) when the job key
is already processing, and otherwise enqueue with the stable priority
sort. -/
def inMemoryQueueAdd (maxQueueSize : Nat) (processingKeys : List String)
    (q : List QJob) (j : QJob) (key : String) :
    Except String (Bool × List QJob) :=
  if maxQueueSize ≤ q.length then .error "Queue is at maximum capacity"
  else if key ∈ processingKeys then .ok (true, q)
  else .ok (false, enqueue q j)

/-- Submitting a batch of jobs one by one through the sorted enqueue. -/
def enqueueAll (js : List QJob) : List QJob :=
  js.foldl enqueue []

/-! ## Render success path and the user record (generateAvatarAsync) -/

/-- Projection of the user document that the render path updates. -/
structure UserRecord where
  username : String
  customizationHash : String
  clothing : String
  thumbnail : String
  avatar : String
deriving DecidableEq, Repr

/-- The three sequential `uploadContent` awaits of `generateAvatarAsync`
(sprite sheet, thumbnail, avatar): the first failure aborts the whole
sequence with that error. -/
def uploadPhase {ε : Type} (upClothing upThumbnail upAvatar : Except ε String) :
    Except ε (String × String × String) := do
  let clothing ← upClothing
  let thumbnailUrl ← upThumbnail
  let avatar ← upAvatar
  pure (clothing, thumbnailUrl, avatar)

/-- The state of the user record after `generateAvatarAsync` runs with the
given upload outcomes: `User.updateOne` writes the new hash together with
the three object keys only after all three uploads returned, and a thrown
upload error skips the update, leaving the record as it was. -/
def recordAfterGeneration {ε : Type} (user : UserRecord) (hash : String)
    (upClothing upThumbnail upAvatar : Except ε String) : UserRecord :=
  match uploadPhase upClothing upThumbnail upAvatar with
  | .error _ => user
  | .ok (clothing, thumbnailUrl, avatar) =>
    { user with
      customizationHash := hash
      clothing := clothing
      thumbnail := thumbnailUrl
      avatar := avatar }

/-! ## Part-image loader (getImage in the queue module) -/

/-- The effectful collaborators of `getImage`, with every fallible step
exposed as an `Except` outcome: the memory cache, the disk cache read
(keyed here by the cache key whose md5 digest names the file), the CDN
fetch of `item-sprite/<item>.webp`, the PNG re-encode plus decode, and the
disk cache write (which `getImage` awaits). -/
structure ImageEnv (Img Err : Type) where
  mem : String → Option Img
  diskRead : String → Except Err Img
  fetch : String → Except Err (List Nat)
  decode : List Nat → Except Err Img
  diskWrite : String → Except Err Unit

/-- The try-block body of `getImage` for a non-empty item reference: the
disk read carries its own `.catch(() => null)`, a disk hit returns
immediately, and otherwise the fetch, the decode and the awaited disk
write each propagate their error to the surrounding catch. -/
def getImageTry {Img Err : Type} (env : ImageEnv Img Err) (item cacheKey : String) :
    Except Err (Option Img) := do
  match (match env.diskRead cacheKey with
         | .ok i => some i
         | .error _ => none) with
  | some diskCached => pure (some diskCached)
  | none => do
    let data ← env.fetch item
    let image ← env.decode data
    let _ ← env.diskWrite cacheKey
    pure (some image)

/-- Embedding of `getImage` from the queue module: a missing reference
(null/undefined, modelled by `none`) or an empty string returns `null`
immediately; a memory-cache hit returns the cached image; and the whole
fetch path is wrapped in a catch that turns every error into `null`. -/
def getImage {Img Err : Type} (env : ImageEnv Img Err) (item : Option String) :
    Option Img :=
  match item with
  | none => none
  | some it =>
    if it = "" then none
    else
      let cacheKey := it.toLower
      match env.mem cacheKey with
      | some memCached => some memCached
      | none =>
        match getImageTry env it cacheKey with
        | .ok r => r
        | .error _ => none

/-! ## Single-flight generation locks (api.js getAvatar) -/

/-- State of the `generationLocks` / `generationEvents` single-flight
discipline: the set of held lock keys, the waiters registered with
`generationEvents.once`, the render jobs that have been started, and the
responses sent so far (caller id paired with the bytes served). -/
structure SingleFlightState (R : Type) where
  locks : List String
  waiters : List (String × Nat)
  renders : List (String × Nat)
  responses : List (Nat × R)

/-- The empty single-flight state (no lock held, nobody waiting). -/
def sfInit (R : Type) : SingleFlightState R :=
  { locks := [], waiters := [], renders := [], responses := [] }

/-- One request reaching the lock check of `getAvatar`. The JavaScript
between `generationLocks.has(lockKey)` and `generationLocks.set(lockKey,
true)` contains no await, so the check-then-act runs atomically on the
event loop. If the key is unlocked the caller takes the lock and starts
the render. If the key is held, the caller registers as a waiter on
`generationEvents` and returns its pending promise from the try block —
and that `return` runs the handler's
`finally { if (lockKey) generationLocks.delete(lockKey) }` synchronously,
which deletes the in-flight render's lock even though this caller never
acquired it. -/
def sfArrive {R : Type} (s : SingleFlightState R) (lockKey : String)
    (caller : Nat) : SingleFlightState R :=
  if lockKey ∈ s.locks then
    { s with
      waiters := s.waiters ++ [(lockKey, caller)]
      locks := s.locks.erase lockKey }
  else
    { s with
      locks := lockKey :: s.locks
      renders := s.renders ++ [(lockKey, caller)] }

/-- A batch of requests for one key arriving back to back. -/
def sfArriveAll {R : Type} (s : SingleFlightState R) (lockKey : String)
    (callers : List Nat) : SingleFlightState R :=
  callers.foldl (fun t c => sfArrive t lockKey c) s

/-- The render for `lockKey` finishing with `result`: the success event is
emitted to every waiter registered on that key, the initiating caller
responds with the same bytes, and the `finally` block releases the lock. -/
def sfComplete {R : Type} (s : SingleFlightState R) (lockKey : String)
    (starter : Nat) (result : R) : SingleFlightState R :=
  { s with
    responses := s.responses
      ++ (s.waiters.filter (fun w => w.1 == lockKey)).map (fun w => (w.2, result))
      ++ [(starter, result)]
    waiters := s.waiters.filter (fun w => w.1 != lockKey)
    locks := s.locks.erase lockKey }

/-- A concrete loader environment in which every collaborator fails: the
memory cache always misses, and the disk read, the CDN fetch, the decode
and the disk write all return errors. -/
def imageEnvAllFailing : ImageEnv Nat String :=
  { mem := fun _ => none
    diskRead := fun _ => .error "disk read failed"
    fetch := fun _ => .error "network failed"
    decode := fun _ => .error "decode failed"
    diskWrite := fun _ => .error "disk write failed" }

/-! ## Helper lemmas -/

/-- Applying the mask step twice with the same mask pixel changes nothing
after the first application: the decision depends only on the mask pixel. -/
theorem maskStep_idem (tR tG tB tolR tolG tolB : Int) (m s : Pixel) :
    maskStep tR tG tB tolR tolG tolB m (maskStep tR tG tB tolR tolG tolB m s)
      = maskStep tR tG tB tolR tolG tolB m s := by
  by_cases h : (m.a == 255 && isColorSimilar m.r m.g m.b tR tG tB tolR tolG tolB) = true
  · simp [maskStep, h]
  · simp [maskStep, h]

/-- The mask step written as an explicit per-channel record. -/
theorem maskStep_eq (tR tG tB tolR tolG tolB : Int) (m s : Pixel) :
    maskStep tR tG tB tolR tolG tolB m s
      = { r := s.r, g := s.g, b := s.b,
          a := if m.a == 255 && isColorSimilar m.r m.g m.b tR tG tB tolR tolG tolB
               then 0 else s.a } := by
  by_cases h : (m.a == 255 && isColorSimilar m.r m.g m.b tR tG tB tolR tolG tolB) = true
  · simp [maskStep, h]
  · simp [maskStep, h]

/-- Unfolding of the mask pass on cons cells. -/
theorem removePixelsByImage_cons (tR tG tB tolR tolG tolB : Int)
    (s m : Pixel) (src mask : List Pixel) :
    removePixelsByImage tR tG tB tolR tolG tolB (s :: src) (m :: mask)
      = maskStep tR tG tB tolR tolG tolB m s
          :: removePixelsByImage tR tG tB tolR tolG tolB src mask := rfl

/-- The mask pass is idempotent for any target and tolerance values. -/
theorem removePixelsByImage_idem (tR tG tB tolR tolG tolB : Int) :
    ∀ (src mask : List Pixel),
      removePixelsByImage tR tG tB tolR tolG tolB
          (removePixelsByImage tR tG tB tolR tolG tolB src mask) mask
        = removePixelsByImage tR tG tB tolR tolG tolB src mask
  | [], _ => rfl
  | _ :: _, [] => rfl
  | s :: src, m :: mask => by
    rw [removePixelsByImage_cons, removePixelsByImage_cons, maskStep_idem,
      removePixelsByImage_idem tR tG tB tolR tolG tolB src mask]

/-- A pixel already processed by the single-image step is left untouched
by a second application. -/
theorem selfStep_idem (tR tG tB tolR tolG tolB : Int) (s : Pixel) :
    selfStep tR tG tB tolR tolG tolB (selfStep tR tG tB tolR tolG tolB s)
      = selfStep tR tG tB tolR tolG tolB s := by
  by_cases h1 : (s.a == 255) = true
  · by_cases h2 : isColorSimilar s.r s.g s.b tR tG tB tolR tolG tolB = true
    · simp [selfStep, h1, h2]
    · simp [selfStep, h1, h2]
  · simp [selfStep, h1]

/-- The single-image step written as an explicit per-channel record. -/
theorem selfStep_eq (tR tG tB tolR tolG tolB : Int) (s : Pixel) :
    selfStep tR tG tB tolR tolG tolB s
      = { r := s.r, g := s.g, b := s.b,
          a := if s.a == 255 && isColorSimilar s.r s.g s.b tR tG tB tolR tolG tolB
               then 0 else s.a } := by
  by_cases h1 : (s.a == 255) = true
  · by_cases h2 : isColorSimilar s.r s.g s.b tR tG tB tolR tolG tolB = true
    · simp [selfStep, h1, h2]
    · simp [selfStep, h1, h2]
  · simp [selfStep, h1]

/-- The single-image pass is idempotent for any target and tolerance
values. -/
theorem removePixelsByColor_idem (tR tG tB tolR tolG tolB : Int) :
    ∀ (src : List Pixel),
      removePixelsByColor tR tG tB tolR tolG tolB
          (removePixelsByColor tR tG tB tolR tolG tolB src)
        = removePixelsByColor tR tG tB tolR tolG tolB src
  | [] => rfl
  | s :: src => by
    simp only [removePixelsByColor, List.map_cons] at *
    rw [selfStep_idem]
    have h := removePixelsByColor_idem tR tG tB tolR tolG tolB src
    simp only [removePixelsByColor] at h
    rw [h]

/-- Element lookup through the mask pass. -/
theorem removePixelsByImage_get? (tR tG tB tolR tolG tolB : Int) :
    ∀ (src mask : List Pixel) (i : Nat) (s m : Pixel),
      src.get? i = some s → mask.get? i = some m →
      (removePixelsByImage tR tG tB tolR tolG tolB src mask).get? i
        = some (maskStep tR tG tB tolR tolG tolB m s)
  | [], _, _, _, _, hs, _ => by simp at hs
  | _ :: _, [], _, _, _, _, hm => by simp at hm
  | s' :: src, m' :: mask, 0, s, m, hs, hm => by
    simp only [List.get?] at hs hm
    cases hs
    cases hm
    rfl
  | s' :: src, m' :: mask, i + 1, s, m, hs, hm => by
    simp only [List.get?] at hs hm
    rw [removePixelsByImage_cons]
    simpa using removePixelsByImage_get? tR tG tB tolR tolG tolB src mask i s m hs hm

/-! ## Claim theorems -/

/-- C6: the chroma-key mask step is idempotent. With the target color and
tolerances passed by `processWithWorkers`, applying the mask-layer pass
twice to the same source/mask pair yields the same buffer as applying it
once, and applying the single-image pass twice yields the same buffer as
applying it once. -/
theorem chromaKey_idempotent (src mask : List Pixel) :
    removePixelsByImage targetR targetG targetB toleranceR toleranceG toleranceB
        (removePixelsByImage targetR targetG targetB toleranceR toleranceG toleranceB src mask)
        mask
      = removePixelsByImage targetR targetG targetB toleranceR toleranceG toleranceB src mask
    ∧ removePixelsByColor targetR targetG targetB toleranceR toleranceG toleranceB
        (removePixelsByColor targetR targetG targetB toleranceR toleranceG toleranceB src)
      = removePixelsByColor targetR targetG targetB toleranceR toleranceG toleranceB src :=
  ⟨removePixelsByImage_idem targetR targetG targetB toleranceR toleranceG toleranceB src mask,
   removePixelsByColor_idem targetR targetG targetB toleranceR toleranceG toleranceB src⟩

/-- C10: the chroma-key worker touches only the alpha byte. At every index
of the output buffer the red, green and blue bytes equal the input's, and
the alpha byte is 0 exactly when the controlling pixel (the mask pixel in
mask mode, the pixel itself in single-image mode) is fully opaque and its
color lies in the tolerance box around the target color; otherwise the
alpha byte is the input's. -/
theorem chromaKey_frame (src mask : List Pixel) (i : Nat) (s m : Pixel)
    (hs : src.get? i = some s) (hm : mask.get? i = some m) :
    (removePixelsByImage targetR targetG targetB toleranceR toleranceG toleranceB
        src mask).get? i
      = some { r := s.r, g := s.g, b := s.b,
               a := if m.a == 255 &&
                      isColorSimilar m.r m.g m.b targetR targetG targetB
                        toleranceR toleranceG toleranceB
                    then 0 else s.a }
    ∧ (removePixelsByColor targetR targetG targetB toleranceR toleranceG toleranceB
        src).get? i
      = some { r := s.r, g := s.g, b := s.b,
               a := if s.a == 255 &&
                      isColorSimilar s.r s.g s.b targetR targetG targetB
                        toleranceR toleranceG toleranceB
                    then 0 else s.a } := by
  constructor
  · rw [removePixelsByImage_get? targetR targetG targetB toleranceR toleranceG toleranceB
      src mask i s m hs hm, maskStep_eq]
  · rw [removePixelsByColor, List.get?_map, hs, Option.map_some', selfStep_eq]

/-- Witness for C10 at a concrete buffer: the mask pixel (0, 255, 4, 255)
is chroma-keyed, so the source pixel (200, 0, 0, 255) keeps its color bytes
and loses its alpha in mask mode, while in single-image mode the pixel's
own color is outside the box and it is untouched. -/
theorem chromaKey_frame_witness :
    (removePixelsByImage targetR targetG targetB toleranceR toleranceG toleranceB
        [{ r := 200, g := 0, b := 0, a := 255 }]
        [{ r := 0, g := 255, b := 4, a := 255 }]).get? 0
      = some { r := 200, g := 0, b := 0, a := 0 }
    ∧ (removePixelsByColor targetR targetG targetB toleranceR toleranceG toleranceB
        [{ r := 200, g := 0, b := 0, a := 255 }]).get? 0
      = some { r := 200, g := 0, b := 0, a := 255 } := by
  have h := chromaKey_frame
    [{ r := 200, g := 0, b := 0, a := 255 }]
    [{ r := 0, g := 255, b := 4, a := 255 }] 0
    { r := 200, g := 0, b := 0, a := 255 }
    { r := 0, g := 255, b := 4, a := 255 } rfl rfl
  revert h
  decide

/-- C5 (corrected), counterexample: the `avatarWorker.js` compositor does
not define four pairwise-distinct layer orders — its front-view table is
identical to its side-view table. -/
theorem facingOrders_worker_front_eq_side :
    getFacingOrderWorker 0 = getFacingOrderWorker 1 := by decide

/-- C5 (amended): the `api.js` compositor defines four pairwise-distinct
layer orders grouped as front (0), sides (1 and 4 share a table),
three-quarters (2 and 5 share a table) and back (3); the `avatarWorker.js`
compositor uses the same grouping but its front table coincides with its
side table, leaving three distinct orders there. -/
theorem facingOrders_grouping :
    (getFacingOrder 0 ≠ getFacingOrder 1 ∧ getFacingOrder 0 ≠ getFacingOrder 2 ∧
     getFacingOrder 0 ≠ getFacingOrder 3 ∧ getFacingOrder 1 ≠ getFacingOrder 2 ∧
     getFacingOrder 1 ≠ getFacingOrder 3 ∧ getFacingOrder 2 ≠ getFacingOrder 3) ∧
    (getFacingOrder 4 = getFacingOrder 1 ∧ getFacingOrder 5 = getFacingOrder 2) ∧
    (getFacingOrderWorker 4 = getFacingOrderWorker 1 ∧
     getFacingOrderWorker 5 = getFacingOrderWorker 2) ∧
    (getFacingOrderWorker 0 = getFacingOrderWorker 1 ∧
     getFacingOrderWorker 1 ≠ getFacingOrderWorker 2 ∧
     getFacingOrderWorker 1 ≠ getFacingOrderWorker 3 ∧
     getFacingOrderWorker 2 ≠ getFacingOrderWorker 3) := by decide

/-- C2 (corrected), counterexample: the queue module assigns priority 1
only to thumbnail jobs, so an avatar job does not have strictly higher
priority than a sprite job, and an avatar job submitted after a sprite job
is dequeued after it. -/
theorem queuePriority_avatar_sprite_tie :
    priorityFor "avatar" = priorityFor "sprite"
    ∧ ¬ priorityFor "sprite" < priorityFor "avatar"
    ∧ priorityFor "sprite" = 0 ∧ priorityFor "avatar" = 0
    ∧ enqueue (enqueue [] { seq := 0, jtype := "sprite", priority := priorityFor "sprite" })
        { seq := 1, jtype := "avatar", priority := priorityFor "avatar" }
      = [{ seq := 0, jtype := "sprite", priority := priorityFor "sprite" },
         { seq := 1, jtype := "avatar", priority := priorityFor "avatar" }] := by
  refine ⟨rfl, by decide, rfl, rfl, ?_⟩
  have h1 : enqueue []
      { seq := 0, jtype := "sprite", priority := priorityFor "sprite" }
      = [{ seq := 0, jtype := "sprite", priority := priorityFor "sprite" }] :=
    List.mergeSort_of_sorted (List.pairwise_singleton _ _)
  rw [h1]
  exact List.mergeSort_of_sorted (by simp [List.pairwise_cons, jobLE, priorityFor])

/-- The queue comparator is transitive. -/
theorem jobLE_trans (a b c : QJob) (hab : jobLE a b) (hbc : jobLE b c) :
    jobLE a c := by
  simp only [jobLE, decide_eq_true_eq] at *
  omega

/-- The queue comparator is total. -/
theorem jobLE_total (a b : QJob) : jobLE a b || jobLE b a := by
  simp only [jobLE, Bool.or_eq_true, decide_eq_true_eq]
  omega

/-- Stability of the queue sort on a priority tier: the stable sort does
not reorder the jobs of any single priority, so filtering a tier out of
the sorted queue returns those jobs in their original order. -/
theorem mergeSort_filter_tier (l : List QJob) (p : Nat) :
    (List.mergeSort l jobLE).filter (fun j => j.priority == p)
      = l.filter (fun j => j.priority == p) := by
  have hpair : (l.filter (fun j => j.priority == p)).Pairwise
      (fun a b => jobLE a b) := by
    apply List.pairwise_of_forall_mem_list
    intro a ha b hb
    have ha' := List.of_mem_filter ha
    have hb' := List.of_mem_filter hb
    simp only [beq_iff_eq] at ha' hb'
    simp [jobLE, ha', hb']
  have hsub : List.Sublist (l.filter (fun j => j.priority == p))
      (List.mergeSort l jobLE) :=
    List.sublist_mergeSort jobLE_trans jobLE_total hpair (List.filter_sublist l)
  have h1 : List.Sublist (l.filter (fun j => j.priority == p))
      ((List.mergeSort l jobLE).filter (fun j => j.priority == p)) := by
    have h2 := hsub.filter (fun j => j.priority == p)
    simpa [List.filter_filter] using h2
  have hlen : ((List.mergeSort l jobLE).filter (fun j => j.priority == p)).length
      = (l.filter (fun j => j.priority == p)).length :=
    ((List.mergeSort_perm l jobLE).filter (fun j => j.priority == p)).length_eq
  exact (h1.eq_of_length hlen.symm).symm

/-- Every enqueue leaves the queue sorted by descending priority. -/
theorem enqueue_sorted (q : List QJob) (j : QJob) :
    (enqueue q j).Pairwise (fun a b => b.priority ≤ a.priority) := by
  have h := List.sorted_mergeSort jobLE_trans jobLE_total (q ++ [j])
  exact h.imp (fun hab => by simpa [jobLE] using hab)

/-- Sortedness of the queue is preserved across a batch of submissions. -/
theorem foldl_enqueue_sorted :
    ∀ (js q : List QJob), q.Pairwise (fun a b => b.priority ≤ a.priority) →
      (js.foldl enqueue q).Pairwise (fun a b => b.priority ≤ a.priority)
  | [], _, h => h
  | _ :: js, q, _ => foldl_enqueue_sorted js (enqueue q _) (enqueue_sorted q _)

/-- A batch of submissions preserves the per-tier submission order. -/
theorem foldl_enqueue_filter (p : Nat) :
    ∀ (js q : List QJob),
      (js.foldl enqueue q).filter (fun j => j.priority == p)
        = q.filter (fun j => j.priority == p) ++ js.filter (fun j => j.priority == p)
  | [], q => by simp
  | j :: js, q => by
    rw [List.foldl_cons, foldl_enqueue_filter p js (enqueue q j)]
    have h : (enqueue q j).filter (fun j => j.priority == p)
        = q.filter (fun j => j.priority == p)
          ++ [j].filter (fun j => j.priority == p) := by
      rw [enqueue, mergeSort_filter_tier, List.filter_append]
    rw [h, List.filter_cons]
    by_cases hj : (j.priority == p) = true
    · simp [hj, List.append_assoc]
    · simp [hj]

/-- C2 (amended): the queue assigns thumbnail jobs strictly higher
priority (1) than avatar and sprite jobs, which share priority 0; after
any batch of submissions the queue — which is dequeued front-first — is
sorted by descending priority, and within any one priority tier the jobs
stand in their submission (FIFO) order. -/
theorem queuePriority_order (js : List QJob) :
    (priorityFor "thumbnail" = 1 ∧ priorityFor "avatar" = 0 ∧
     priorityFor "sprite" = 0) ∧
    (enqueueAll js).Pairwise (fun a b => b.priority ≤ a.priority) ∧
    ∀ p : Nat, (enqueueAll js).filter (fun j => j.priority == p)
      = js.filter (fun j => j.priority == p) := by
  refine ⟨⟨rfl, rfl, rfl⟩, foldl_enqueue_sorted js [] (List.Pairwise.nil), ?_⟩
  intro p
  simpa using foldl_enqueue_filter p js []

/-- C4: pseudo-layer exclusivity. For every direction and every value of
the two layout flags, instantiating the compositor with a layers map that
tags each real slot by its own name shows that the `shoes` raster is
selected at exactly one name of the layer order — `shoes_before` when
`shoesBehindPants` is false and `shoes_after` when it is true — and the
`hair` raster at exactly one name selected by `hairInfrontTop`; each
appears exactly once in the composited stack, never at both positions.
This holds for the `api.js` tables and the `avatarWorker.js` tables. -/
theorem pseudoLayer_exclusive (d : Fin 6) (sb hi : Bool) :
    (∀ n ∈ getFacingOrder d.val,
      (selectLayer slotTag sb hi n = some "shoes" ↔
        n = (if sb then "shoes_after" else "shoes_before")) ∧
      (selectLayer slotTag sb hi n = some "hair" ↔
        n = (if hi then "hair_infront" else "hair_behind"))) ∧
    (compositeLayers (getFacingOrder d.val) slotTag sb hi).count "shoes" = 1 ∧
    (compositeLayers (getFacingOrder d.val) slotTag sb hi).count "hair" = 1 ∧
    (∀ n ∈ getFacingOrderWorker d.val,
      (selectLayer slotTagWorker sb hi n = some "shoes" ↔
        n = (if sb then "shoes_after" else "shoes_before")) ∧
      (selectLayer slotTagWorker sb hi n = some "hair" ↔
        n = (if hi then "hair_infront" else "hair_behind"))) ∧
    (compositeLayers (getFacingOrderWorker d.val) slotTagWorker sb hi).count "shoes" = 1 ∧
    (compositeLayers (getFacingOrderWorker d.val) slotTagWorker sb hi).count "hair" = 1 := by
  revert sb hi
  fin_cases d <;> decide

/-- Witness for C4 at a concrete input: for direction 0 with both flags
false, the shoes raster is selected at the `shoes_before` name. -/
theorem pseudoLayer_exclusive_witness :
    ("shoes_before" ∈ getFacingOrder (0 : Fin 6).val) ∧
    selectLayer slotTag false false "shoes_before" = some "shoes" :=
  ⟨by decide,
   (((pseudoLayer_exclusive 0 false false).1 "shoes_before" (by decide)).1).mpr rfl⟩

/-- C1: the single-flight discipline is broken for three or more
concurrent requests. Tracing three back-to-back arrivals for one key from
a clean state: caller 0 takes the lock and starts a render; caller 1 finds
the key locked, registers as a waiter, and its synchronous `finally` block
deletes the in-flight lock; caller 2 then finds the key unlocked and
starts a second render for the same key. Two renders execute, against the
claim's (and the spec's) exactly-one; when the first render completes, the
waiter and the starter do share its result while the duplicate render is
still recorded. -/
theorem singleFlight_double_render :
    ((sfArriveAll (sfInit Bool) "alice-7" [0, 1, 2]).renders
        = [("alice-7", 0), ("alice-7", 2)])
    ∧ ((sfArriveAll (sfInit Bool) "alice-7" [0, 1, 2]).waiters
        = [("alice-7", 1)])
    ∧ ((sfArriveAll (sfInit Bool) "alice-7" [0, 1, 2]).locks = ["alice-7"])
    ∧ ((sfComplete (sfArriveAll (sfInit Bool) "alice-7" [0, 1, 2])
          "alice-7" 0 true).responses = [(1, true), (0, true)])
    ∧ ((sfComplete (sfArriveAll (sfInit Bool) "alice-7" [0, 1, 2])
          "alice-7" 0 true).renders = [("alice-7", 0), ("alice-7", 2)]) := by
  decide

/-- C3: all-updated or hash-unchanged. If any of the three uploads of
`generateAvatarAsync` fails, the user record — in particular its
`customizationHash` field — is left exactly as it was; the update that
writes the new hash together with the three object keys runs only when
all three uploads succeeded, and then writes all four fields together. -/
theorem render_uploads_atomic {ε : Type} (user : UserRecord) (hash : String)
    (upClothing upThumbnail upAvatar : Except ε String) :
    ((∃ e, upClothing = .error e) ∨ (∃ e, upThumbnail = .error e) ∨
        (∃ e, upAvatar = .error e) →
      recordAfterGeneration user hash upClothing upThumbnail upAvatar = user)
    ∧ (∀ c t a, upClothing = .ok c → upThumbnail = .ok t → upAvatar = .ok a →
        recordAfterGeneration user hash upClothing upThumbnail upAvatar
          = { user with
              customizationHash := hash, clothing := c, thumbnail := t, avatar := a })
    ∧ (recordAfterGeneration user hash upClothing upThumbnail upAvatar = user
        ∨ ∃ c t a, upClothing = .ok c ∧ upThumbnail = .ok t ∧ upAvatar = .ok a ∧
            recordAfterGeneration user hash upClothing upThumbnail upAvatar
              = { user with
                  customizationHash := hash, clothing := c, thumbnail := t,
                  avatar := a }) := by
  refine ⟨?_, ?_, ?_⟩
  · cases upClothing <;> cases upThumbnail <;> cases upAvatar <;>
      simp_all [recordAfterGeneration, uploadPhase, Bind.bind, Except.bind, pure,
        Except.pure]
  · intro c t a hc ht ha
    simp [recordAfterGeneration, uploadPhase, hc, ht, ha, Bind.bind, Except.bind,
      pure, Except.pure]
  · cases hC : upClothing <;> cases hT : upThumbnail <;> cases hA : upAvatar <;>
      simp_all [recordAfterGeneration, uploadPhase, Bind.bind, Except.bind, pure,
        Except.pure]

/-- Witness for C3 at a concrete record: a failed thumbnail upload leaves
the record untouched, and three successful uploads write the new hash and
all three keys. -/
theorem render_uploads_atomic_witness :
    recordAfterGeneration
        { username := "alice", customizationHash := "h1", clothing := "c0",
          thumbnail := "t0", avatar := "a0" } "h2"
        (.ok "c1") (.error "upload failed" : Except String String) (.ok "a1")
      = { username := "alice", customizationHash := "h1", clothing := "c0",
          thumbnail := "t0", avatar := "a0" }
    ∧ recordAfterGeneration
        { username := "alice", customizationHash := "h1", clothing := "c0",
          thumbnail := "t0", avatar := "a0" } "h2"
        (.ok "c1") (.ok "t1") (.ok "a1" : Except String String)
      = { username := "alice", customizationHash := "h2", clothing := "c1",
          thumbnail := "t1", avatar := "a1" } :=
  ⟨(render_uploads_atomic
      { username := "alice", customizationHash := "h1", clothing := "c0",
        thumbnail := "t0", avatar := "a0" } "h2"
      (.ok "c1") (.error "upload failed") (.ok "a1")).1
    (Or.inr (Or.inl ⟨"upload failed", rfl⟩)),
   (render_uploads_atomic
      { username := "alice", customizationHash := "h1", clothing := "c0",
        thumbnail := "t0", avatar := "a0" } "h2"
      (.ok "c1") (.ok "t1") (.ok "a1")).2.1 "c1" "t1" "a1" rfl rfl rfl⟩

/-- C7: the part-image loader is total and never propagates an error to
the render. A missing reference (null/undefined or the empty string)
returns `none`; a memory-cache hit returns the cached raster; and whatever
way the disk read, the CDN fetch, the decode or the awaited disk-cache
write fail, the surrounding catch turns the error into `none`, so the
compositor simply skips the slot. When everything succeeds the fetched
raster is returned. -/
theorem getImage_absorbs_errors {Img Err : Type} (env : ImageEnv Img Err) :
    (getImage env none = none)
    ∧ (getImage env (some "") = none)
    ∧ (∀ it img, it ≠ "" → env.mem it.toLower = some img →
        getImage env (some it) = some img)
    ∧ (∀ it e1 e2, it ≠ "" →
        env.mem it.toLower = none →
        env.diskRead it.toLower = .error e1 →
        env.fetch it = .error e2 →
        getImage env (some it) = none)
    ∧ (∀ it e1 data e2, it ≠ "" →
        env.mem it.toLower = none →
        env.diskRead it.toLower = .error e1 →
        env.fetch it = .ok data →
        env.decode data = .error e2 →
        getImage env (some it) = none)
    ∧ (∀ it e1 data img e2, it ≠ "" →
        env.mem it.toLower = none →
        env.diskRead it.toLower = .error e1 →
        env.fetch it = .ok data →
        env.decode data = .ok img →
        env.diskWrite it.toLower = .error e2 →
        getImage env (some it) = none)
    ∧ (∀ it e1 data img, it ≠ "" →
        env.mem it.toLower = none →
        env.diskRead it.toLower = .error e1 →
        env.fetch it = .ok data →
        env.decode data = .ok img →
        env.diskWrite it.toLower = .ok () →
        getImage env (some it) = some img) := by
  refine ⟨rfl, rfl, ?_, ?_, ?_, ?_, ?_⟩
  · intro it img hne hmem
    simp [getImage, hne, hmem]
  · intro it e1 e2 hne hmem hdisk hfetch
    simp [getImage, getImageTry, hne, hmem, hdisk, hfetch, Bind.bind, Except.bind]
  · intro it e1 data e2 hne hmem hdisk hfetch hdecode
    simp [getImage, getImageTry, hne, hmem, hdisk, hfetch, hdecode, Bind.bind,
      Except.bind]
  · intro it e1 data img e2 hne hmem hdisk hfetch hdecode hwrite
    simp [getImage, getImageTry, hne, hmem, hdisk, hfetch, hdecode, hwrite,
      Bind.bind, Except.bind, pure, Except.pure]
  · intro it e1 data img hne hmem hdisk hfetch hdecode hwrite
    simp [getImage, getImageTry, hne, hmem, hdisk, hfetch, hdecode, hwrite,
      Bind.bind, Except.bind, pure, Except.pure]

/-- Witness for C7: with every collaborator failing, a load for the
reference `Item1` returns `none` rather than an error. -/
theorem getImage_absorbs_errors_witness :
    getImage imageEnvAllFailing (some "Item1") = none :=
  (getImage_absorbs_errors imageEnvAllFailing).2.2.2.1 "Item1"
    "disk read failed" "network failed" (by decide) rfl rfl rfl

/-- C9: transient-failure retry policy. `retryWithBackoff` makes up to
`RETRY_ATTEMPTS = 3` calls in total; after the k-th failed attempt it
sleeps `delay * 2 ^ (k - 1)` (so the waits double, `delay` then
`2 * delay`), and the error of the third attempt is the one propagated to
the caller only after that final attempt fails. The render queue applies
the same schedule through `queueRetryDelay` with its configured
`retryDelay` of 2000 ms, so its first backoff is exactly 2 seconds
(`api.js`'s generic helper defaults to `RETRY_DELAY = 1000` ms). -/
theorem retryBackoff_policy {ε α : Type} (outcomes : Nat → Except ε α)
    (delay : Nat) :
    (RETRY_ATTEMPTS = 3 ∧ RETRY_DELAY = 1000 ∧
     avatarQueueOptions.retryAttempts = 3 ∧ avatarQueueOptions.retryDelay = 2000 ∧
     queueRetryDelay avatarQueueOptions.retryDelay 1 = 2000 ∧
     queueRetryDelay avatarQueueOptions.retryDelay 2 = 4000)
    ∧ (∀ a, outcomes 0 = .ok a →
        retryWithBackoff outcomes RETRY_ATTEMPTS delay = (some (.ok a), []))
    ∧ (∀ e0 a, outcomes 0 = .error e0 → outcomes 1 = .ok a →
        retryWithBackoff outcomes RETRY_ATTEMPTS delay
          = (some (.ok a), [delay * 2 ^ 0]))
    ∧ (∀ e0 e1 a, outcomes 0 = .error e0 → outcomes 1 = .error e1 →
        outcomes 2 = .ok a →
        retryWithBackoff outcomes RETRY_ATTEMPTS delay
          = (some (.ok a), [delay * 2 ^ 0, delay * 2 ^ 1]))
    ∧ (∀ e0 e1 e2, outcomes 0 = .error e0 → outcomes 1 = .error e1 →
        outcomes 2 = .error e2 →
        retryWithBackoff outcomes RETRY_ATTEMPTS delay
          = (some (.error e2), [delay * 2 ^ 0, delay * 2 ^ 1])) := by
  refine ⟨⟨rfl, rfl, rfl, rfl, rfl, rfl⟩, ?_, ?_, ?_, ?_⟩
  · intro a h0
    simp [retryWithBackoff, RETRY_ATTEMPTS, retryAux, h0]
  · intro e0 a h0 h1
    simp [retryWithBackoff, RETRY_ATTEMPTS, retryAux, h0, h1]
  · intro e0 e1 a h0 h1 h2
    simp [retryWithBackoff, RETRY_ATTEMPTS, retryAux, h0, h1, h2]
  · intro e0 e1 e2 h0 h1 h2
    simp [retryWithBackoff, RETRY_ATTEMPTS, retryAux, h0, h1, h2]

/-- Witness for C9: a call that fails on all three attempts with the
queue's 2000 ms base delay returns the third error after sleeping 2000 ms
and then 4000 ms. -/
theorem retryBackoff_policy_witness :
    retryWithBackoff (fun i => (.error i : Except Nat Nat)) RETRY_ATTEMPTS 2000
      = (some (.error 2), [2000 * 2 ^ 0, 2000 * 2 ^ 1]) :=
  (retryBackoff_policy (fun i => (.error i : Except Nat Nat)) 2000).2.2.2.2
    0 1 2 rfl rfl rfl
